import Mathlib

/-!
# Verification of the chimera-supervisor condition-evaluation engine

Shallow embedding of `src/chimera_manager/controllers/handlers.py` and the
record schema of `src/chimera_manager/controllers/model.py`.

Modelling conventions:
* Timestamps (`site.ut()`, `site.sunset()`, `check.time`, ...) are rational
  numbers counting hours since an arbitrary epoch.  Python's
  `datetime.time()` (the time-of-day component of a timestamp) becomes
  `timeOfDay`, the value modulo 24 hours.  `x.replace(tzinfo=None)` is the
  identity in this model.
* Sensor values are rationals; a weather-station reading is a record with a
  `value` field, mirroring the `.value` attribute used by the handlers.
* Python float formatting `"%.2f" % x` is rendered with `toString`; no claim
  depends on the digits of an interpolated number.
* A handler's `process(check)` mutates at most `check.time` in place; the
  embedding passes the check record explicitly and returns the updated
  record alongside the result.  A Python function that falls off the end
  (no `return` executed) yields `none`; an executed `return v, m` yields
  `some (v, m)`.
-/

/-- A weather-station reading: an object exposing a numeric `value`
(spec §6: "each returns a reading exposing at least a numeric `.value`"). -/
structure WSReading where
  value : ℚ
  deriving Repr, DecidableEq

/-- Snapshot of the weather-station capability for one call to `process`:
the readings `humidity()`, `temperature()`, `wind_speed()` and `dew_point()`
return during that call. -/
structure WeatherStation where
  humidity : WSReading
  temperature : WSReading
  wind_speed : WSReading
  dew_point : WSReading
  deriving Repr, DecidableEq

/-- Snapshot of the site (ephemeris) capability for one call to `process`:
the timestamps its query methods return during that call, in hours. -/
structure Site where
  sunset : ℚ
  sunset_twilight_begin : ℚ
  sunset_twilight_end : ℚ
  sunrise : ℚ
  sunrise_twilight_begin : ℚ
  sunrise_twilight_end : ℚ
  ut : ℚ
  deriving Repr, DecidableEq

/-- The time-of-day component of a timestamp in hours: Python's
`datetime.time()`, i.e. the value modulo 24. -/
def timeOfDay (t : ℚ) : ℚ := t - 24 * (⌊t / 24⌋ : ℚ)

/-- The dynamic check record as the handlers read it: `check.mode`,
`check.deltaTime`, the mutable `check.time` (None until first set), the
per-variant threshold attributes (`humidity`, `temperature`, `windspeed`,
`dewpoint`, `tempdiff`), and the AskListener inputs (`question`,
`waittime`).  `id` and `list_id` are the identifier columns of
`model.py`. -/
structure CheckRec where
  id : ℤ
  list_id : ℤ
  mode : ℤ
  deltaTime : ℚ
  time : Option ℚ
  humidity : ℚ
  temperature : ℚ
  windspeed : ℚ
  dewpoint : ℚ
  tempdiff : ℚ
  question : String
  waittime : ℚ
  deriving Repr, DecidableEq

/-- Embedding of `TimeHandler.process` (handlers.py lines 47-84).  Resolves a reference
time from `abs(check.mode)` (0/±1 sunset, ±2/±3 sunset twilights, ±4
sunrise, ±5/±6 sunrise twilights, anything else the stored `check.time`),
fails closed when the reference is `None`, otherwise offsets the reference
by `deltaTime` and compares time-of-day components: `mode >= 0` tests
`ut.time() > reftime.time()`, `mode < 0` tests `ut.time() < reftime.time()`.
Never mutates the check. -/
def TimeHandler.process (site : Site) (check : CheckRec) :
    (Bool × String) × CheckRec :=
  let reftime : Option ℚ :=
    if check.mode.natAbs = 1 ∨ check.mode = 0 then some site.sunset
    else if check.mode.natAbs = 2 then some site.sunset_twilight_begin
    else if check.mode.natAbs = 3 then some site.sunset_twilight_end
    else if check.mode.natAbs = 4 then some site.sunrise
    else if check.mode.natAbs = 5 then some site.sunrise_twilight_begin
    else if check.mode.natAbs = 6 then some site.sunrise_twilight_end
    else check.time
  match reftime with
  | none => ((false, "Could not determined reference time."), check)
  | some rt =>
    if check.mode ≥ 0 then
      let reftime := rt + check.deltaTime
      let ut := site.ut
      let ret := decide (timeOfDay ut > timeOfDay reftime)
      let msg := if ret then
          "Reference time (" ++ toString reftime ++ ") has passed. Now " ++ toString ut
        else
          "Reference time (" ++ toString reftime ++ ") still in the future. Now " ++ toString ut
      ((ret, msg), check)
    else
      let reftime := rt + check.deltaTime
      let ut := site.ut
      let ret := decide (timeOfDay ut < timeOfDay reftime)
      let msg := if ret then
          "Reference time (" ++ toString reftime ++ ") still in the future. Now " ++ toString ut
        else
          "Reference time (" ++ toString reftime ++ ") has passed. Now " ++ toString ut
      ((ret, msg), check)

/-- Embedding of `HumidityHandler.process` (handlers.py lines 96-130).  Mode 0: trips
when the reading exceeds the threshold and stamps `check.time` on a tripped
verdict.  Mode 1: debounce-then-confirm on the safe condition
`threshold > reading`.  Any other mode falls off the end (`none`). -/
def HumidityHandler.process (site : Site) (ws : WeatherStation)
    (check : CheckRec) : Option (Bool × String) × CheckRec :=
  let humidity := ws.humidity
  if check.mode = 0 then
    let ret := decide (check.humidity < humidity.value)
    let msg := if !ret then
        "Humidity OK (" ++ toString humidity.value ++ "/" ++ toString check.humidity ++ ")"
      else
        "Humidity higher than specified threshold (" ++ toString humidity.value ++ "/" ++ toString check.humidity ++ ")"
    let check := if ret then { check with time := some site.ut } else check
    (some (ret, msg), check)
  else if check.mode = 1 then
    let ret := decide (check.humidity > humidity.value)
    let msg := if !ret then
        "Nothing to do. Humidity higher than threshold (" ++ toString humidity.value ++ "/" ++ toString check.humidity ++ ")."
      else
        "Humidity lower than threshold (" ++ toString humidity.value ++ "/" ++ toString check.humidity ++ ")."
    if !ret then
      (some (ret, msg), { check with time := some site.ut })
    else match check.time with
      | some t =>
        let ret := decide (t + check.deltaTime < site.ut)
        if ret then
          (some (ret, msg ++ "Elapsed time ok"), { check with time := some site.ut })
        else
          (some (ret, msg ++ "Elapsed time () too short."), check)
      | none =>
        (some (false, msg), { check with time := some site.ut })
  else (none, check)

/-- Embedding of `TemperatureHandler.process` (handlers.py lines 141-176).  Mode 0:
trips when the reading is below the threshold; unlike `HumidityHandler`
the mode-0 branch never touches `check.time`.  Mode 1: debounce on the
safe condition `threshold < reading`. -/
def TemperatureHandler.process (site : Site) (ws : WeatherStation)
    (check : CheckRec) : Option (Bool × String) × CheckRec :=
  let temperature := ws.temperature
  if check.mode = 0 then
    let ret := decide (check.temperature > temperature.value)
    let msg := if !ret then
        "Temperature OK (" ++ toString temperature.value ++ "/" ++ toString check.temperature ++ ")"
      else
        "Temperature lower than specified threshold(" ++ toString temperature.value ++ "/" ++ toString check.temperature ++ ")"
    (some (ret, msg), check)
  else if check.mode = 1 then
    let ret := decide (check.temperature < temperature.value)
    let msg := if !ret then
        "Nothing to do. Temperature lower than threshold (" ++ toString temperature.value ++ "/" ++ toString check.temperature ++ ")."
      else
        "Temperature higher than threshold (" ++ toString temperature.value ++ "/" ++ toString check.temperature ++ ")."
    if !ret then
      (some (ret, msg), { check with time := some site.ut })
    else match check.time with
      | some t =>
        let ret := decide (t + check.deltaTime < site.ut)
        if ret then
          (some (ret, msg ++ "Elapsed time ok"), { check with time := some site.ut })
        else
          (some (ret, msg ++ "Elapsed time too short."), check)
      | none =>
        (some (false, msg), { check with time := some site.ut })
  else (none, check)

/-- Embedding of `WindSpeedHandler.process` (handlers.py lines 187-222).  Mode 0: trips
when the reading exceeds the threshold; the mode-0 branch never touches
`check.time`.  Mode 1: debounce on the safe condition
`threshold > reading`. -/
def WindSpeedHandler.process (site : Site) (ws : WeatherStation)
    (check : CheckRec) : Option (Bool × String) × CheckRec :=
  let windspeed := ws.wind_speed
  if check.mode = 0 then
    let ret := decide (check.windspeed < windspeed.value)
    let msg := if !ret then
        "Wind speed OK (" ++ toString windspeed.value ++ "/" ++ toString check.windspeed ++ ")"
      else
        "Wind speed higher than specified threshold (" ++ toString windspeed.value ++ "/" ++ toString check.windspeed ++ ")"
    (some (ret, msg), check)
  else if check.mode = 1 then
    let ret := decide (check.windspeed > windspeed.value)
    let msg := if !ret then
        "Nothing to do. Windspeed higher than threshold (" ++ toString windspeed.value ++ "/" ++ toString check.windspeed ++ ")."
      else
        "Windspeed lower than threshold (" ++ toString windspeed.value ++ "/" ++ toString check.windspeed ++ ")."
    if !ret then
      (some (ret, msg), { check with time := some site.ut })
    else match check.time with
      | some t =>
        let ret := decide (t + check.deltaTime < site.ut)
        if ret then
          (some (ret, msg ++ "Elapsed time ok"), { check with time := some site.ut })
        else
          (some (ret, msg ++ "Elapsed time too short."), check)
      | none =>
        (some (false, msg), { check with time := some site.ut })
  else (none, check)

/-- Embedding of `DewHandler.process` (handlers.py lines 266-305).  Works on the
difference `temperature.value - dew_point.value`.  Mode 0: trips when the
difference is below the threshold; never touches `check.time` in mode 0.
Mode 1: debounce on the safe condition `threshold < diff`. -/
def DewHandler.process (site : Site) (ws : WeatherStation)
    (check : CheckRec) : Option (Bool × String) × CheckRec :=
  let temperature := ws.temperature
  let dewpoint := ws.dew_point
  let tempdiff := temperature.value - dewpoint.value
  if check.mode = 0 then
    let ret := decide (check.tempdiff > tempdiff)
    let msg := if !ret then
        "Dew OK (" ++ toString tempdiff ++ "/" ++ toString check.tempdiff ++ ")"
      else
        "Dew point difference lower than specified threshold (" ++ toString tempdiff ++ "/" ++ toString check.tempdiff ++ ")"
    (some (ret, msg), check)
  else if check.mode = 1 then
    let ret := decide (check.tempdiff < tempdiff)
    let msg := if !ret then
        "Nothing to do. Dew point difference higher than threshold (" ++ toString tempdiff ++ "/" ++ toString check.tempdiff ++ ")."
      else
        "Windspeed lower than threshold (" ++ toString tempdiff ++ "/" ++ toString check.tempdiff ++ ")."
    if !ret then
      (some (ret, msg), { check with time := some site.ut })
    else match check.time with
      | some t =>
        let ret := decide (t + check.deltaTime < site.ut)
        if ret then
          (some (ret, msg ++ "Elapsed time ok"), { check with time := some site.ut })
        else
          (some (ret, msg ++ "Elapsed time too short."), check)
      | none =>
        (some (false, msg), { check with time := some site.ut })
  else (none, check)

/-- Python 2 mixed-type comparison of a number with a non-numeric object:
CPython 2 orders every number below every non-numeric object, so
`x > obj` evaluates to `False` for any float `x` and any reading object.
`DewPointHandler.process` compares `check.dewpoint` with the reading
object returned by `weatherstation.dew_point()` itself (it omits the
`.value` access its siblings perform), which makes this the comparison
the source actually executes. -/
def py2NumGtObj (x : ℚ) (r : WSReading) : Bool :=
  false

/-- Embedding of `DewPointHandler.process` (handlers.py lines 230-241).  Single
unconditional comparison `check.dewpoint > weatherstation.dew_point()` —
against the reading object, not its `.value` — and no mutation. -/
def DewPointHandler.process (ws : WeatherStation) (check : CheckRec) :
    (Bool × String) × CheckRec :=
  let ret := py2NumGtObj check.dewpoint ws.dew_point
  let msg := if !ret then "Dew point OK" else "Dew point lower than specified threshold"
  ((ret, msg), check)

/-- The manager capability used by `AskListenerHandler`: `askWatcher`
submits a question with a wait budget and returns the operator's
free-text answer. -/
structure Manager where
  askWatcher : String → ℚ → String

/-- Embedding of `AskListenerHandler.process` (handlers.py lines 246-259).  Verdict is
true iff the upper-cased answer equals "OK"; no mutation. -/
def AskListenerHandler.process (manager : Manager) (check : CheckRec) :
    (Bool × String) × CheckRec :=
  let result := manager.askWatcher check.question check.waittime
  let ret := result.toUpper == "OK"
  if ret then
    ((ret, "User send OK. Proceeding..."), check)
  else
    ((false, "Negated with " ++ result), check)

/-! ## Observation helpers and the hysteresis behaviour predicate -/

/-- The verdict component of a threshold handler's result (`none` when the
Python function fell off the end without returning). -/
def verdictOf (r : Option (Bool × String) × CheckRec) : Option Bool :=
  r.1.map Prod.fst

/-- The (possibly updated) check record a handler call leaves behind. -/
def stateOf (r : Option (Bool × String) × CheckRec) : CheckRec :=
  r.2

/-- The mode-1 ("debounced") behaviour required of a hysteresis handler,
parameterised by the raw safe condition `safe`, the current clock reading
`now` and the incoming check record: an unsafe reading reports `false` and
re-stamps `time`; a safe reading with unset `time` starts the window
(stamps `time`, reports `false`); a safe reading with `time = some t`
confirms (`true`, re-stamps) exactly when `t + deltaTime < now`, i.e. when
the elapsed time strictly exceeds `deltaTime` hours, and otherwise reports
`false` leaving the record untouched. -/
def mode1Spec (safe : Bool) (now : ℚ) (check : CheckRec)
    (r : Option (Bool × String) × CheckRec) : Prop :=
  (safe = false →
    verdictOf r = some false ∧ stateOf r = { check with time := some now }) ∧
  (safe = true → check.time = none →
    verdictOf r = some false ∧ stateOf r = { check with time := some now }) ∧
  (∀ t, safe = true → check.time = some t →
    if t + check.deltaTime < now then
      verdictOf r = some true ∧ stateOf r = { check with time := some now }
    else
      verdictOf r = some false ∧ stateOf r = check)

/-- In mode 1, `HumidityHandler.process` implements the debounce pattern
with safe condition `threshold > reading`. -/
theorem humidity_mode1 (site : Site) (ws : WeatherStation) (check : CheckRec)
    (h : check.mode = 1) :
    mode1Spec (decide (check.humidity > ws.humidity.value)) site.ut check
      (HumidityHandler.process site ws check) := by
  refine ⟨?_, ?_, ?_⟩
  · intro hsafe
    rw [decide_eq_false_iff_not] at hsafe
    simp [HumidityHandler.process, verdictOf, stateOf, h, hsafe]
  · intro hsafe ht
    rw [decide_eq_true_eq] at hsafe
    simp [HumidityHandler.process, verdictOf, stateOf, h, hsafe, ht]
  · intro t hsafe ht
    rw [decide_eq_true_eq] at hsafe
    by_cases he : t + check.deltaTime < site.ut
    · simp [HumidityHandler.process, verdictOf, stateOf, h, hsafe, ht, he]
    · simp [HumidityHandler.process, verdictOf, stateOf, h, hsafe, ht, he]

/-- In mode 1, `TemperatureHandler.process` implements the debounce pattern
with safe condition `threshold < reading`. -/
theorem temperature_mode1 (site : Site) (ws : WeatherStation) (check : CheckRec)
    (h : check.mode = 1) :
    mode1Spec (decide (check.temperature < ws.temperature.value)) site.ut check
      (TemperatureHandler.process site ws check) := by
  refine ⟨?_, ?_, ?_⟩
  · intro hsafe
    rw [decide_eq_false_iff_not] at hsafe
    simp [TemperatureHandler.process, verdictOf, stateOf, h, hsafe]
  · intro hsafe ht
    rw [decide_eq_true_eq] at hsafe
    simp [TemperatureHandler.process, verdictOf, stateOf, h, hsafe, ht]
  · intro t hsafe ht
    rw [decide_eq_true_eq] at hsafe
    by_cases he : t + check.deltaTime < site.ut
    · simp [TemperatureHandler.process, verdictOf, stateOf, h, hsafe, ht, he]
    · simp [TemperatureHandler.process, verdictOf, stateOf, h, hsafe, ht, he]

/-- In mode 1, `WindSpeedHandler.process` implements the debounce pattern
with safe condition `threshold > reading`. -/
theorem windspeed_mode1 (site : Site) (ws : WeatherStation) (check : CheckRec)
    (h : check.mode = 1) :
    mode1Spec (decide (check.windspeed > ws.wind_speed.value)) site.ut check
      (WindSpeedHandler.process site ws check) := by
  refine ⟨?_, ?_, ?_⟩
  · intro hsafe
    rw [decide_eq_false_iff_not] at hsafe
    simp [WindSpeedHandler.process, verdictOf, stateOf, h, hsafe]
  · intro hsafe ht
    rw [decide_eq_true_eq] at hsafe
    simp [WindSpeedHandler.process, verdictOf, stateOf, h, hsafe, ht]
  · intro t hsafe ht
    rw [decide_eq_true_eq] at hsafe
    by_cases he : t + check.deltaTime < site.ut
    · simp [WindSpeedHandler.process, verdictOf, stateOf, h, hsafe, ht, he]
    · simp [WindSpeedHandler.process, verdictOf, stateOf, h, hsafe, ht, he]

/-- In mode 1, `DewHandler.process` implements the debounce pattern with
safe condition `threshold < (temperature - dew point)`. -/
theorem dew_mode1 (site : Site) (ws : WeatherStation) (check : CheckRec)
    (h : check.mode = 1) :
    mode1Spec (decide (check.tempdiff < ws.temperature.value - ws.dew_point.value))
      site.ut check (DewHandler.process site ws check) := by
  refine ⟨?_, ?_, ?_⟩
  · intro hsafe
    rw [decide_eq_false_iff_not] at hsafe
    simp [DewHandler.process, verdictOf, stateOf, h, hsafe]
  · intro hsafe ht
    rw [decide_eq_true_eq] at hsafe
    simp [DewHandler.process, verdictOf, stateOf, h, hsafe, ht]
  · intro t hsafe ht
    rw [decide_eq_true_eq] at hsafe
    by_cases he : t + check.deltaTime < site.ut
    · simp [DewHandler.process, verdictOf, stateOf, h, hsafe, ht, he]
    · simp [DewHandler.process, verdictOf, stateOf, h, hsafe, ht, he]

/-- In mode 0, `HumidityHandler.process` reports `threshold < reading` and
stamps `check.time` with the current clock exactly on a tripped verdict. -/
theorem humidity_mode0 (site : Site) (ws : WeatherStation) (check : CheckRec)
    (h : check.mode = 0) :
    verdictOf (HumidityHandler.process site ws check) =
      some (decide (check.humidity < ws.humidity.value)) ∧
    stateOf (HumidityHandler.process site ws check) =
      (if check.humidity < ws.humidity.value then
        { check with time := some site.ut } else check) := by
  by_cases hc : check.humidity < ws.humidity.value <;>
    simp [HumidityHandler.process, verdictOf, stateOf, h, hc]

/-- In mode 0, `TemperatureHandler.process` reports `threshold > reading`
and never mutates the check record. -/
theorem temperature_mode0 (site : Site) (ws : WeatherStation) (check : CheckRec)
    (h : check.mode = 0) :
    verdictOf (TemperatureHandler.process site ws check) =
      some (decide (check.temperature > ws.temperature.value)) ∧
    stateOf (TemperatureHandler.process site ws check) = check := by
  simp [TemperatureHandler.process, verdictOf, stateOf, h]

/-- In mode 0, `WindSpeedHandler.process` reports `threshold < reading`
and never mutates the check record. -/
theorem windspeed_mode0 (site : Site) (ws : WeatherStation) (check : CheckRec)
    (h : check.mode = 0) :
    verdictOf (WindSpeedHandler.process site ws check) =
      some (decide (check.windspeed < ws.wind_speed.value)) ∧
    stateOf (WindSpeedHandler.process site ws check) = check := by
  simp [WindSpeedHandler.process, verdictOf, stateOf, h]

/-- In mode 0, `DewHandler.process` reports
`threshold > (temperature - dew point)` and never mutates the check
record. -/
theorem dew_mode0 (site : Site) (ws : WeatherStation) (check : CheckRec)
    (h : check.mode = 0) :
    verdictOf (DewHandler.process site ws check) =
      some (decide (check.tempdiff > ws.temperature.value - ws.dew_point.value)) ∧
    stateOf (DewHandler.process site ws check) = check := by
  simp [DewHandler.process, verdictOf, stateOf, h]

/-! ## Concrete test fixtures -/

/-- A neutral check record used as the base of concrete test inputs. -/
def baseCheck : CheckRec :=
  { id := 1, list_id := 1, mode := 0, deltaTime := 0, time := none,
    humidity := 0, temperature := 0, windspeed := 0, dewpoint := 0,
    tempdiff := 0, question := "", waittime := 0 }

/-- A concrete site snapshot: sunset 18h, sunrise 6h, current UT 19h. -/
def siteW : Site :=
  { sunset := 18, sunset_twilight_begin := 19, sunset_twilight_end := 20,
    sunrise := 6, sunrise_twilight_begin := 5, sunrise_twilight_end := 4,
    ut := 19 }

/-- A concrete weather snapshot: humidity 70, temperature 5, wind 10,
dew point 5. -/
def wsW : WeatherStation :=
  { humidity := ⟨70⟩, temperature := ⟨5⟩, wind_speed := ⟨10⟩,
    dew_point := ⟨5⟩ }

/-- A mode-1 check whose raw safe condition holds for every handler under
`wsW`: humidity threshold 80 > 70, temperature threshold -10 < 5, wind
threshold 40 > 10, temperature-dew difference threshold -100 < 0. -/
def checkM1 : CheckRec :=
  { baseCheck with
    mode := 1, deltaTime := 1, humidity := 80,
    temperature := -10, windspeed := 40, tempdiff := -100 }

/-- A mode-0 check: thresholds humidity 80, temperature 10, wind 40,
difference 5 against the `wsW` readings. -/
def checkM0 : CheckRec :=
  { baseCheck with
    mode := 0, humidity := 80, temperature := 10,
    windspeed := 40, tempdiff := 5 }

/-! ## Claims -/

/-- C1: every hysteresis handler (Humidity, Temperature, WindSpeed, Dew)
in mode 1 follows the debounce pattern: an unsafe raw condition reports
False and stamps check.time with the current clock; a safe condition with
unset check.time stamps it and reports False; a safe condition with
check.time set reports True and re-stamps exactly when the elapsed time
strictly exceeds deltaTime hours, and otherwise reports False leaving
check.time unchanged. -/
theorem C1_mode1_hysteresis (site : Site) (ws : WeatherStation)
    (check : CheckRec) (h : check.mode = 1) :
    mode1Spec (decide (check.humidity > ws.humidity.value)) site.ut check
      (HumidityHandler.process site ws check) ∧
    mode1Spec (decide (check.temperature < ws.temperature.value)) site.ut check
      (TemperatureHandler.process site ws check) ∧
    mode1Spec (decide (check.windspeed > ws.wind_speed.value)) site.ut check
      (WindSpeedHandler.process site ws check) ∧
    mode1Spec (decide (check.tempdiff < ws.temperature.value - ws.dew_point.value))
      site.ut check (DewHandler.process site ws check) :=
  ⟨humidity_mode1 site ws check h, temperature_mode1 site ws check h,
   windspeed_mode1 site ws check h, dew_mode1 site ws check h⟩

/-- Witness for C1 at the concrete mode-1 check `checkM1`. -/
theorem C1_mode1_hysteresis_witness :
    mode1Spec (decide (checkM1.humidity > wsW.humidity.value)) siteW.ut checkM1
      (HumidityHandler.process siteW wsW checkM1) ∧
    mode1Spec (decide (checkM1.temperature < wsW.temperature.value)) siteW.ut checkM1
      (TemperatureHandler.process siteW wsW checkM1) ∧
    mode1Spec (decide (checkM1.windspeed > wsW.wind_speed.value)) siteW.ut checkM1
      (WindSpeedHandler.process siteW wsW checkM1) ∧
    mode1Spec (decide (checkM1.tempdiff < wsW.temperature.value - wsW.dew_point.value))
      siteW.ut checkM1 (DewHandler.process siteW wsW checkM1) :=
  C1_mode1_hysteresis siteW wsW checkM1 rfl

/-- C2: the raw comparison of each handler is, in mode 0 / mode 1
respectively: Humidity `threshold < reading` / `threshold > reading`;
Temperature `threshold > reading` / `threshold < reading`; WindSpeed
`threshold < reading` / `threshold > reading`; Dew
`threshold > (temperature - dew point)` / `threshold < (temperature - dew
point)`.  Mode 0 reports the comparison directly; mode 1 runs the debounce
pattern on it. -/
theorem C2_raw_comparisons (site : Site) (ws : WeatherStation)
    (c0 c1 : CheckRec) (h0 : c0.mode = 0) (h1 : c1.mode = 1) :
    verdictOf (HumidityHandler.process site ws c0) =
      some (decide (c0.humidity < ws.humidity.value)) ∧
    verdictOf (TemperatureHandler.process site ws c0) =
      some (decide (c0.temperature > ws.temperature.value)) ∧
    verdictOf (WindSpeedHandler.process site ws c0) =
      some (decide (c0.windspeed < ws.wind_speed.value)) ∧
    verdictOf (DewHandler.process site ws c0) =
      some (decide (c0.tempdiff > ws.temperature.value - ws.dew_point.value)) ∧
    mode1Spec (decide (c1.humidity > ws.humidity.value)) site.ut c1
      (HumidityHandler.process site ws c1) ∧
    mode1Spec (decide (c1.temperature < ws.temperature.value)) site.ut c1
      (TemperatureHandler.process site ws c1) ∧
    mode1Spec (decide (c1.windspeed > ws.wind_speed.value)) site.ut c1
      (WindSpeedHandler.process site ws c1) ∧
    mode1Spec (decide (c1.tempdiff < ws.temperature.value - ws.dew_point.value))
      site.ut c1 (DewHandler.process site ws c1) :=
  ⟨(humidity_mode0 site ws c0 h0).1, (temperature_mode0 site ws c0 h0).1,
   (windspeed_mode0 site ws c0 h0).1, (dew_mode0 site ws c0 h0).1,
   humidity_mode1 site ws c1 h1, temperature_mode1 site ws c1 h1,
   windspeed_mode1 site ws c1 h1, dew_mode1 site ws c1 h1⟩

/-- Witness for C2 at the concrete checks `checkM0` and `checkM1`. -/
theorem C2_raw_comparisons_witness :
    verdictOf (HumidityHandler.process siteW wsW checkM0) =
      some (decide (checkM0.humidity < wsW.humidity.value)) ∧
    verdictOf (TemperatureHandler.process siteW wsW checkM0) =
      some (decide (checkM0.temperature > wsW.temperature.value)) ∧
    verdictOf (WindSpeedHandler.process siteW wsW checkM0) =
      some (decide (checkM0.windspeed < wsW.wind_speed.value)) ∧
    verdictOf (DewHandler.process siteW wsW checkM0) =
      some (decide (checkM0.tempdiff > wsW.temperature.value - wsW.dew_point.value)) ∧
    mode1Spec (decide (checkM1.humidity > wsW.humidity.value)) siteW.ut checkM1
      (HumidityHandler.process siteW wsW checkM1) ∧
    mode1Spec (decide (checkM1.temperature < wsW.temperature.value)) siteW.ut checkM1
      (TemperatureHandler.process siteW wsW checkM1) ∧
    mode1Spec (decide (checkM1.windspeed > wsW.wind_speed.value)) siteW.ut checkM1
      (WindSpeedHandler.process siteW wsW checkM1) ∧
    mode1Spec (decide (checkM1.tempdiff < wsW.temperature.value - wsW.dew_point.value))
      siteW.ut checkM1 (DewHandler.process siteW wsW checkM1) :=
  C2_raw_comparisons siteW wsW checkM0 checkM1 rfl rfl

/-- A mode-0 Temperature check that trips under `wsW`: threshold 10 is
above the reading 5, and `time` is unset. -/
def checkT0 : CheckRec := { baseCheck with mode := 0, temperature := 10 }

/-- C3 counterexample: in mode 0 the Temperature handler returns verdict
True yet leaves `check.time` unset (`none` rather than the current clock),
refuting the claim that all four hysteresis handlers stamp `check.time` on
a tripped mode-0 verdict. -/
theorem C3_counterexample :
    verdictOf (TemperatureHandler.process siteW wsW checkT0) = some true ∧
    (stateOf (TemperatureHandler.process siteW wsW checkT0)).time = none := by
  exact ⟨rfl, rfl⟩

/-- C3 amended: in mode 0 only the Humidity handler stamps `check.time`
with the current clock, and does so exactly on a tripped verdict; the
Temperature, WindSpeed and Dew handlers never mutate the check record in
mode 0. -/
theorem C3_amended_mode0_stamp (site : Site) (ws : WeatherStation)
    (check : CheckRec) (h : check.mode = 0) :
    stateOf (HumidityHandler.process site ws check) =
      (if check.humidity < ws.humidity.value then
        { check with time := some site.ut } else check) ∧
    stateOf (TemperatureHandler.process site ws check) = check ∧
    stateOf (WindSpeedHandler.process site ws check) = check ∧
    stateOf (DewHandler.process site ws check) = check :=
  ⟨(humidity_mode0 site ws check h).2, (temperature_mode0 site ws check h).2,
   (windspeed_mode0 site ws check h).2, (dew_mode0 site ws check h).2⟩

/-- Witness for the amended C3 at the concrete mode-0 check `checkT0`. -/
theorem C3_amended_mode0_stamp_witness :
    stateOf (HumidityHandler.process siteW wsW checkT0) =
      (if checkT0.humidity < wsW.humidity.value then
        { checkT0 with time := some siteW.ut } else checkT0) ∧
    stateOf (TemperatureHandler.process siteW wsW checkT0) = checkT0 ∧
    stateOf (WindSpeedHandler.process siteW wsW checkT0) = checkT0 ∧
    stateOf (DewHandler.process siteW wsW checkT0) = checkT0 :=
  C3_amended_mode0_stamp siteW wsW checkT0 rfl

/-- Shifting a timestamp by a whole day leaves its time-of-day component
unchanged. -/
theorem timeOfDay_add_24 (t : ℚ) : timeOfDay (t + 24) = timeOfDay t := by
  unfold timeOfDay
  have h : (t + 24) / 24 = t / 24 + 1 := by ring
  rw [h, Int.floor_add_one]
  push_cast
  ring

/-- C4: for the Time handler with deltaTime = 0, mode = 0 reports True iff
the current UT time-of-day is strictly after the sunset time-of-day, and
mode = -4 reports True iff the current UT time-of-day is strictly before
the sunrise time-of-day; both comparisons go through `timeOfDay`, so
shifting the current UT by a whole day (changing the date but not the
time-of-day) leaves both verdicts unchanged. -/
theorem C4_time_handler_sunset_sunrise (site : Site) (c1 c2 : CheckRec)
    (h1m : c1.mode = 0) (h1d : c1.deltaTime = 0)
    (h2m : c2.mode = -4) (h2d : c2.deltaTime = 0) :
    ((TimeHandler.process site c1).1.1 = true ↔
      timeOfDay site.ut > timeOfDay site.sunset) ∧
    ((TimeHandler.process site c2).1.1 = true ↔
      timeOfDay site.ut < timeOfDay site.sunrise) ∧
    (TimeHandler.process { site with ut := site.ut + 24 } c1).1.1 =
      (TimeHandler.process site c1).1.1 ∧
    (TimeHandler.process { site with ut := site.ut + 24 } c2).1.1 =
      (TimeHandler.process site c2).1.1 := by
  refine ⟨?_, ?_, ?_, ?_⟩
  · simp [TimeHandler.process, h1m, h1d]
  · simp [TimeHandler.process, h2m, h2d]
  · simp [TimeHandler.process, h1m, h1d, timeOfDay_add_24]
  · simp [TimeHandler.process, h2m, h2d, timeOfDay_add_24]

/-- A check with mode 0 and deltaTime 0 (sunset comparison). -/
def checkSunset : CheckRec := { baseCheck with mode := 0 }

/-- A check with mode -4 and deltaTime 0 (sunrise comparison). -/
def checkSunrise : CheckRec := { baseCheck with mode := -4 }

/-- Witness for C4 at the concrete site `siteW` (sunset 18h, sunrise 6h,
UT 19h). -/
theorem C4_time_handler_sunset_sunrise_witness :
    ((TimeHandler.process siteW checkSunset).1.1 = true ↔
      timeOfDay siteW.ut > timeOfDay siteW.sunset) ∧
    ((TimeHandler.process siteW checkSunrise).1.1 = true ↔
      timeOfDay siteW.ut < timeOfDay siteW.sunrise) ∧
    (TimeHandler.process { siteW with ut := siteW.ut + 24 } checkSunset).1.1 =
      (TimeHandler.process siteW checkSunset).1.1 ∧
    (TimeHandler.process { siteW with ut := siteW.ut + 24 } checkSunrise).1.1 =
      (TimeHandler.process siteW checkSunrise).1.1 :=
  C4_time_handler_sunset_sunrise siteW checkSunset checkSunrise rfl rfl rfl rfl

/-- C5: when the Time handler cannot resolve a reference time (a mode of
magnitude above 6 with an unset stored `check.time`), it returns verdict
False with an explanatory message and leaves the check unchanged; being a
total function of its inputs, it raises no exception. -/
theorem C5_time_handler_no_reference (site : Site) (check : CheckRec)
    (h : 6 < check.mode.natAbs) (ht : check.time = none) :
    TimeHandler.process site check =
      ((false, "Could not determined reference time."), check) := by
  have h1 : ¬(check.mode.natAbs = 1 ∨ check.mode = 0) := by omega
  have h2 : ¬check.mode.natAbs = 2 := by omega
  have h3 : ¬check.mode.natAbs = 3 := by omega
  have h4 : ¬check.mode.natAbs = 4 := by omega
  have h5 : ¬check.mode.natAbs = 5 := by omega
  have h6 : ¬check.mode.natAbs = 6 := by omega
  simp [TimeHandler.process, h1, h2, h3, h4, h5, h6, ht]

/-- A check with mode 7 (stored-reference mode) and unset time. -/
def checkMode7 : CheckRec := { baseCheck with mode := 7 }

/-- Witness for C5 at the concrete check `checkMode7`. -/
theorem C5_time_handler_no_reference_witness :
    TimeHandler.process siteW checkMode7 =
      ((false, "Could not determined reference time."), checkMode7) :=
  C5_time_handler_no_reference siteW checkMode7 (by decide) rfl

/-- A check whose dew-point threshold (10) is strictly above the `wsW`
dew-point reading value (5). -/
def checkDP : CheckRec := { baseCheck with dewpoint := 10 }

/-- C6 divergence, evaluated at the failing input: the configured
threshold strictly exceeds the reading's numeric value (10 > 5), so the
claim demands verdict True, yet `DewPointHandler.process` returns False —
the source compares the threshold with the reading object returned by
`weatherstation.dew_point()` (omitting the `.value` access its sibling
`DewHandler` performs), and under Python 2 ordering a number is below any
non-numeric object.  The check record is not mutated. -/
theorem C6_dewpoint_code_eval :
    checkDP.dewpoint > wsW.dew_point.value ∧
    DewPointHandler.process wsW checkDP = ((false, "Dew point OK"), checkDP) := by
  exact ⟨by norm_num [checkDP, wsW, baseCheck], rfl⟩

/-- C7: for any mode other than 0 and 1, each threshold handler
(Humidity, Temperature, WindSpeed, Dew) falls off the end of its Python
body: the result is the implicit `none` outcome with the check unchanged,
and no exception is raised (the embedded functions are total). -/
theorem C7_undefined_mode (site : Site) (ws : WeatherStation)
    (check : CheckRec) (h0 : check.mode ≠ 0) (h1 : check.mode ≠ 1) :
    HumidityHandler.process site ws check = (none, check) ∧
    TemperatureHandler.process site ws check = (none, check) ∧
    WindSpeedHandler.process site ws check = (none, check) ∧
    DewHandler.process site ws check = (none, check) := by
  refine ⟨?_, ?_, ?_, ?_⟩
  · simp [HumidityHandler.process, h0, h1]
  · simp [TemperatureHandler.process, h0, h1]
  · simp [WindSpeedHandler.process, h0, h1]
  · simp [DewHandler.process, h0, h1]

/-- A check with the undefined mode 2. -/
def checkMode2 : CheckRec := { baseCheck with mode := 2 }

/-- Witness for C7 at the concrete mode-2 check. -/
theorem C7_undefined_mode_witness :
    HumidityHandler.process siteW wsW checkMode2 = (none, checkMode2) ∧
    TemperatureHandler.process siteW wsW checkMode2 = (none, checkMode2) ∧
    WindSpeedHandler.process siteW wsW checkMode2 = (none, checkMode2) ∧
    DewHandler.process siteW wsW checkMode2 = (none, checkMode2) :=
  C7_undefined_mode siteW wsW checkMode2 (by decide) (by decide)

/-- Frame condition: the record `c2` agrees with `c1` on every field other
than `time`. -/
def framePreserved (c1 c2 : CheckRec) : Prop :=
  c2 = { c1 with time := c2.time }

/-- C8: for every handler the only field of the check record that an
invocation of `process` may change is `time`; all other fields (mode,
thresholds, deltaTime, question, waittime, identifiers) are unchanged. -/
theorem C8_only_time_mutated (site : Site) (ws : WeatherStation)
    (manager : Manager) (check : CheckRec) :
    framePreserved check (TimeHandler.process site check).2 ∧
    framePreserved check (stateOf (HumidityHandler.process site ws check)) ∧
    framePreserved check (stateOf (TemperatureHandler.process site ws check)) ∧
    framePreserved check (stateOf (WindSpeedHandler.process site ws check)) ∧
    framePreserved check (stateOf (DewHandler.process site ws check)) ∧
    framePreserved check (DewPointHandler.process ws check).2 ∧
    framePreserved check (AskListenerHandler.process manager check).2 := by
  refine ⟨?_, ?_, ?_, ?_, ?_, ?_, ?_⟩
  · unfold framePreserved TimeHandler.process
    dsimp only
    repeat' split
    all_goals rfl
  · unfold framePreserved stateOf HumidityHandler.process
    dsimp only
    repeat' split
    all_goals rfl
  · unfold framePreserved stateOf TemperatureHandler.process
    dsimp only
    repeat' split
    all_goals rfl
  · unfold framePreserved stateOf WindSpeedHandler.process
    dsimp only
    repeat' split
    all_goals rfl
  · unfold framePreserved stateOf DewHandler.process
    dsimp only
    repeat' split
    all_goals rfl
  · unfold framePreserved DewPointHandler.process
    rfl
  · unfold framePreserved AskListenerHandler.process
    dsimp only
    repeat' split
    all_goals rfl

/-- A mode-1 Humidity check (threshold 80, one-hour window, time unset)
for the two-step evaluation sequence of C9. -/
def c9check : CheckRec :=
  { baseCheck with mode := 1, deltaTime := 1, humidity := 80 }

/-- First evaluation instant: clock 0h. -/
def c9site1 : Site := { siteW with ut := 0 }

/-- First evaluation reading: humidity 90 (raw condition unsafe). -/
def c9ws1 : WeatherStation := { wsW with humidity := ⟨90⟩ }

/-- Second evaluation instant: clock 1h (monotone; the elapsed time does
not strictly exceed the one-hour window). -/
def c9site2 : Site := { siteW with ut := 1 }

/-- Second evaluation reading: humidity 70 (raw condition safe: flip). -/
def c9ws2 : WeatherStation := { wsW with humidity := ⟨70⟩ }

/-- Check record after the first evaluation. -/
def c9mid : CheckRec := stateOf (HumidityHandler.process c9site1 c9ws1 c9check)

/-- Check record after the second evaluation. -/
def c9fin : CheckRec := stateOf (HumidityHandler.process c9site2 c9ws2 c9mid)

/-- C9 counterexample: two consecutive evaluations of one mode-1 Humidity
check under a monotone clock (0h then 1h).  The raw safe condition is
false at the first evaluation and true at the second — a flip — yet the
second evaluation leaves `check.time` at its old stamp 0h instead of
replacing it with the current clock reading 1h, refuting the claim that
`check.time` is replaced with the current clock whenever the raw
condition flips. -/
theorem C9_counterexample :
    decide (c9check.humidity > c9ws1.humidity.value) = false ∧
    decide (c9check.humidity > c9ws2.humidity.value) = true ∧
    c9site1.ut ≤ c9site2.ut ∧
    c9mid.time = some c9site1.ut ∧
    c9fin.time = some c9site1.ut ∧
    c9fin.time ≠ some c9site2.ut := by
  have hut1 : c9site1.ut = 0 := rfl
  have hut2 : c9site2.ut = 1 := rfl
  have hsafe1 : decide (c9check.humidity > c9ws1.humidity.value) = false := by
    rw [decide_eq_false_iff_not]
    norm_num [c9check, c9ws1, baseCheck, wsW]
  have hsafe2 : decide (c9check.humidity > c9ws2.humidity.value) = true := by
    rw [decide_eq_true_eq]
    norm_num [c9check, c9ws2, baseCheck, wsW]
  have hmid : c9mid = { c9check with time := some c9site1.ut } :=
    ((humidity_mode1 c9site1 c9ws1 c9check rfl).1 hsafe1).2
  have hmid_mode : c9mid.mode = 1 := by rw [hmid]; rfl
  have hmid_time : c9mid.time = some 0 := by rw [hmid, hut1]
  have hsafe2m : decide (c9mid.humidity > c9ws2.humidity.value) = true := by
    rw [hmid]; exact hsafe2
  have h3 := (humidity_mode1 c9site2 c9ws2 c9mid hmid_mode).2.2 0 hsafe2m hmid_time
  have hne : ¬((0:ℚ) + c9mid.deltaTime < c9site2.ut) := by
    have hd : c9mid.deltaTime = 1 := by rw [hmid]; rfl
    rw [hd, hut2]
    norm_num
  rw [if_neg hne] at h3
  have hfin : c9fin = c9mid := h3.2
  refine ⟨hsafe1, hsafe2, ?_, ?_, ?_, ?_⟩
  · rw [hut1, hut2]
    norm_num
  · rw [hmid]
  · rw [hfin, hmid]
  · rw [hfin, hmid_time, hut2]
    simp

/-- The sound part of the C9 invariant for one mode-1 evaluation at clock
`now`, taking a check from `check` to `c2`: any stamp surviving or written
is never earlier than the previous one (given the previous stamp is not in
the future), and an unsafe raw condition — in particular the evaluation at
a safe-to-unsafe flip — always re-stamps `time` with the current clock. -/
def noRollbackStamp (safe : Bool) (now : ℚ) (check c2 : CheckRec) : Prop :=
  (∀ t t2, check.time = some t → t ≤ now → c2.time = some t2 → t ≤ t2) ∧
  (safe = false → c2.time = some now)

/-- Any handler result satisfying `mode1Spec` enjoys `noRollbackStamp`. -/
theorem mode1Spec_noRollbackStamp (safe : Bool) (now : ℚ) (check : CheckRec)
    (r : Option (Bool × String) × CheckRec) (hs : mode1Spec safe now check r) :
    noRollbackStamp safe now check (stateOf r) := by
  obtain ⟨h1, h2, h3⟩ := hs
  constructor
  · intro t t2 ht hle ht2
    cases hb : safe
    · obtain ⟨-, hst⟩ := h1 hb
      rw [hst] at ht2
      simp only [Option.some.injEq] at ht2
      linarith
    · have h3t := h3 t hb ht
      by_cases he : t + check.deltaTime < now
      · rw [if_pos he] at h3t
        obtain ⟨-, hst⟩ := h3t
        rw [hst] at ht2
        simp only [Option.some.injEq] at ht2
        linarith
      · rw [if_neg he] at h3t
        obtain ⟨-, hst⟩ := h3t
        rw [hst] at ht2
        rw [ht] at ht2
        simp only [Option.some.injEq] at ht2
        linarith
  · intro hb
    obtain ⟨-, hst⟩ := h1 hb
    rw [hst]

/-- C9 amended: across consecutive evaluations of one mode-1 check under a
monotone clock, `check.time` is never assigned a value earlier than the one
it previously held (never rolled back), and every evaluation whose raw
condition is unsafe — in particular the one at a safe-to-unsafe flip —
re-stamps `check.time` with the current clock.  (On an unsafe-to-safe flip
the stamp is left unchanged unless the elapsed window already strictly
exceeds `deltaTime`; the original claim's "replaced on every flip" fails
there, see the counterexample.) -/
theorem C9_amended_no_rollback (site : Site) (ws : WeatherStation)
    (check : CheckRec) (h : check.mode = 1) :
    noRollbackStamp (decide (check.humidity > ws.humidity.value)) site.ut check
      (stateOf (HumidityHandler.process site ws check)) ∧
    noRollbackStamp (decide (check.temperature < ws.temperature.value)) site.ut check
      (stateOf (TemperatureHandler.process site ws check)) ∧
    noRollbackStamp (decide (check.windspeed > ws.wind_speed.value)) site.ut check
      (stateOf (WindSpeedHandler.process site ws check)) ∧
    noRollbackStamp (decide (check.tempdiff < ws.temperature.value - ws.dew_point.value))
      site.ut check (stateOf (DewHandler.process site ws check)) :=
  ⟨mode1Spec_noRollbackStamp _ _ _ _ (humidity_mode1 site ws check h),
   mode1Spec_noRollbackStamp _ _ _ _ (temperature_mode1 site ws check h),
   mode1Spec_noRollbackStamp _ _ _ _ (windspeed_mode1 site ws check h),
   mode1Spec_noRollbackStamp _ _ _ _ (dew_mode1 site ws check h)⟩

/-- Witness for the amended C9 at the concrete mode-1 check `checkM1`. -/
theorem C9_amended_no_rollback_witness :
    noRollbackStamp (decide (checkM1.humidity > wsW.humidity.value)) siteW.ut checkM1
      (stateOf (HumidityHandler.process siteW wsW checkM1)) ∧
    noRollbackStamp (decide (checkM1.temperature < wsW.temperature.value)) siteW.ut checkM1
      (stateOf (TemperatureHandler.process siteW wsW checkM1)) ∧
    noRollbackStamp (decide (checkM1.windspeed > wsW.wind_speed.value)) siteW.ut checkM1
      (stateOf (WindSpeedHandler.process siteW wsW checkM1)) ∧
    noRollbackStamp (decide (checkM1.tempdiff < wsW.temperature.value - wsW.dew_point.value))
      siteW.ut checkM1 (stateOf (DewHandler.process siteW wsW checkM1)) :=
  C9_amended_no_rollback siteW wsW checkM1 rfl

/-- Columns of the polymorphic base table "check" in `model.py`: primary
key `id`, foreign key `list_id` and the polymorphic discriminator column
named "type". -/
def Check.columns : List String := ["id", "list_id", "type"]

/-- Columns of a `CheckTime` record: the base-table columns joined with
the "checktime" table's own. -/
def CheckTime.columns : List String :=
  Check.columns ++ ["id", "sun_altitude", "above", "rising"]

/-- Columns of a `CheckHumidity` record. -/
def CheckHumidity.columns : List String := Check.columns ++ ["id", "humidity"]

/-- Columns of a `CheckTemperature` record. -/
def CheckTemperature.columns : List String :=
  Check.columns ++ ["id", "temperature"]

/-- Columns of a `CheckWindSpeed` record. -/
def CheckWindSpeed.columns : List String := Check.columns ++ ["id", "windspeed"]

/-- Columns of a `CheckDewPoint` record. -/
def CheckDewPoint.columns : List String := Check.columns ++ ["id", "dewpoint"]

/-- Columns of a `CheckDew` record. -/
def CheckDew.columns : List String := Check.columns ++ ["id", "tempdiff"]

/-- C10 divergence: no concrete Check variant declared in `model.py`
carries a `mode`, `deltaTime` or `time` column — each variant has only the
base identifiers, the discriminator and its variant-specific threshold —
although `handlers.py` reads `check.mode`, `check.deltaTime` and
`check.time` on every record it processes (the fields of `CheckRec`). -/
theorem C10_missing_columns :
    ("mode" ∉ CheckTime.columns ∧ "deltaTime" ∉ CheckTime.columns ∧
      "time" ∉ CheckTime.columns) ∧
    ("mode" ∉ CheckHumidity.columns ∧ "deltaTime" ∉ CheckHumidity.columns ∧
      "time" ∉ CheckHumidity.columns) ∧
    ("mode" ∉ CheckTemperature.columns ∧ "deltaTime" ∉ CheckTemperature.columns ∧
      "time" ∉ CheckTemperature.columns) ∧
    ("mode" ∉ CheckWindSpeed.columns ∧ "deltaTime" ∉ CheckWindSpeed.columns ∧
      "time" ∉ CheckWindSpeed.columns) ∧
    ("mode" ∉ CheckDewPoint.columns ∧ "deltaTime" ∉ CheckDewPoint.columns ∧
      "time" ∉ CheckDewPoint.columns) ∧
    ("mode" ∉ CheckDew.columns ∧ "deltaTime" ∉ CheckDew.columns ∧
      "time" ∉ CheckDew.columns) := by
  decide
